import Mathlib

/-
  Shallow embedding of approxeng.hwsupport (the channel abstraction and
  transform engine): util.py, motors.py, servos.py, adcs.py, leds.py and
  the add_properties composer in __init__.py.

  Python floats are modelled as rationals (all arithmetic relevant to the
  claims is exact), Python dicts keyed by channel index as association
  lists with dict-style insertion (aset), fallible calls as Except, and
  calls to backend primitives as an emitted event trace.
-/

namespace HwSupport

/- Batteries marks the ℚ field operations irreducible, which blocks
evaluation of the embedded code inside decide; restore the default
reducibility for this development. -/
attribute [local semireducible] Rat.add Rat.sub Rat.mul Rat.inv

/-! ## util.py -/

/-- Embeds util.check_range: clamp to [-1.0, 1.0]. -/
def check_range (i : ℚ) : ℚ :=
  if i < -1 then -1 else if i > 1 then 1 else i

/-- Embeds util.check_positive_range: clamp to [0.0, 1.0]. -/
def check_positive_range (i : ℚ) : ℚ :=
  if i < 0 then 0 else if i > 1 then 1 else i

/-- Embeds util.check_positive: clamp below to 0.0, no upper clamp. -/
def check_positive (i : ℚ) : ℚ :=
  if i < 0 then 0 else i

/-- Floor of a rational as an integer (num and den of a normalised ℚ,
divided rounding toward minus infinity). -/
def qfloor (q : ℚ) : ℤ := q.num.fdiv q.den

/-- Python int() applied to a float: truncation toward zero. -/
def pyInt (q : ℚ) : ℤ := q.num.tdiv q.den

/-- Python float % 1.0: fractional part, result in [0, 1). -/
def pyFract (q : ℚ) : ℚ := q - qfloor q

/-- Python round() applied to a float with ndigits=0, half-to-even. -/
def roundHalfEven (q : ℚ) : ℤ :=
  let f := qfloor q
  let r := q - (f : ℚ)
  if r < 1/2 then f
  else if 1/2 < r then f + 1
  else if f % 2 = 0 then f else f + 1

/-- Python round(x, ndigits=d) for d ≥ 0. -/
def pyRound (q : ℚ) (d : ℕ) : ℚ :=
  (roundHalfEven (q * (10 : ℚ) ^ d) : ℚ) / (10 : ℚ) ^ d

/-! ## Python-level errors raised by the embedded code -/

inductive PyError where
  /-- ValueError raised by the range / index / type checks in the source. -/
  | valueError
  /-- AttributeError: a method or property that was never injected, or a
      missing attribute such as Servo.config. -/
  | attributeError
  /-- TypeError, e.g. calling set_led_hsv through *tuple with wrong arity. -/
  | typeError
  /-- ZeroDivisionError from Python division by zero. -/
  | zeroDivisionError
deriving DecidableEq, Repr

/-! ## Channel state (the mutable fields of Motor / Servo / ADC / LED
objects; the index is the key in the containing dict and the board
back-reference is the containing board) -/

/-- State of motors.Motor: invert, scale, value (None before first set). -/
structure MotorState where
  invert : Bool
  scale : ℚ
  value : Option ℚ
deriving DecidableEq, Repr

/-- State of servos.Servo: pulse_min, pulse_max, value. -/
structure ServoState where
  pulse_min : ℤ
  pulse_max : ℤ
  value : Option ℚ
deriving DecidableEq, Repr

/-- State of adcs.ADC: divisor, cache_time, last_reading_time,
last_reading_value. -/
structure ADCState where
  divisor : ℚ
  cache_time : ℚ
  last_reading_time : Option ℚ
  last_reading_value : Option ℚ
deriving DecidableEq, Repr

/-- State of leds.LED: brightness, gamma, saturation, hsv. -/
structure LEDState where
  brightness : ℚ
  gamma : ℚ
  saturation : ℚ
  hsv : ℚ × ℚ × ℚ
deriving DecidableEq, Repr

/-! ## Association lists standing for Python dicts -/

/-- Dict lookup d[k], none when the key is absent. -/
def alookup {α : Type} : List (ℤ × α) → ℤ → Option α
  | [], _ => none
  | p :: rest, k => if p.1 = k then some p.2 else alookup rest k

/-- Dict update d[k] = v: replace in place, append when new. -/
def aset {α : Type} : List (ℤ × α) → ℤ → α → List (ℤ × α)
  | [], k, v => [(k, v)]
  | p :: rest, k, v => if p.1 = k then (k, v) :: rest else p :: aset rest k v

/-! ## Backend (the pre-augmentation driver object) -/

/-- The external driver object passed to add_properties: which private
primitives it defines, and the raw ADC samples it returns (indexed by the
adc channel and by how many raw reads have happened so far, standing for
the backend-internal state an external ADC may have). -/
structure Backend where
  hasSetMotorSpeed : Bool
  hasSetServoPulsewidth : Bool
  hasReadAdc : Bool
  hasSetLedRgb : Bool
  hasStop : Bool
  rawAdc : ℤ → ℕ → ℚ

/-- One call to a backend primitive, in call order. An ledUpdate event
stands for the single _set_led_rgb call made by _update_led, whose r, g, b
arguments are a pure function of the recorded LEDState (brightness, then
saturation exponent, then hsv_to_rgb, then gamma, per leds._update_led). -/
inductive Event where
  | setMotorSpeed (motor : ℤ) (speed : ℚ)
  | setServoPulsewidth (servo : ℤ) (width : ℤ)
  | readAdcRaw (adc : ℤ)
  | ledUpdate (led : ℤ) (st : LEDState)
  | stopHook
deriving DecidableEq, Repr

/-! ## The board's _config registry and the augmented board -/

/-- board._config: top-level keys 'motors', 'servos', 'adcs', 'leds' are
present (some) exactly when add_properties put them there. -/
structure Registry where
  motors : Option (List (ℤ × MotorState))
  servos : Option (List (ℤ × ServoState))
  adcs : Option (List (ℤ × ADCState))
  leds : Option (List (ℤ × LEDState))
deriving DecidableEq, Repr

/-- The augmented board: the backend, the index lists captured by the
add_properties closure, the _config registry, and a counter of raw ADC
reads made so far (used to index Backend.rawAdc). -/
structure Board where
  backend : Backend
  motors : List ℤ
  servos : List ℤ
  adcs : List ℤ
  leds : List ℤ
  reg : Registry
  rawCalls : ℕ

/-- The SetMotorsMixin is part of the dynamic Board class exactly when the
backend defines _set_motor_speed and the motors list is non-empty
(add_properties lines 125-126). -/
def Board.hasMotorMixin (b : Board) : Bool :=
  b.backend.hasSetMotorSpeed && !b.motors.isEmpty

/-- The SetServosMixin is present exactly when the backend defines
_set_servo_pulsewidth and the servos list is non-empty. -/
def Board.hasServoMixin (b : Board) : Bool :=
  b.backend.hasSetServoPulsewidth && !b.servos.isEmpty

/-- The ReadADCsMixin is present exactly when the backend defines
_read_adc and the adcs list is non-empty. -/
def Board.hasAdcMixin (b : Board) : Bool :=
  b.backend.hasReadAdc && !b.adcs.isEmpty

/-- The SetLEDsMixin is present exactly when the backend defines
_set_led_rgb and the leds list is non-empty. -/
def Board.hasLedMixin (b : Board) : Bool :=
  b.backend.hasSetLedRgb && !b.leds.isEmpty

/-- Embeds add_properties (composition): the _config dict gets a top-level
key for each kind whose requested index list is non-empty, and the
per-index channel objects are created unconditionally for every requested
index (lines 251-295 of the source run regardless of which mixins were
selected at lines 125-132). -/
def add_properties (backend : Backend) (motors servos adcs leds : List ℤ)
    (default_adc_divisor : ℚ) : Board :=
  let motorCfg : Option (List (ℤ × MotorState)) :=
    if motors.isEmpty then none
    else some (motors.foldl (fun l m => aset l m ⟨false, 1, none⟩) [])
  let servoCfg : Option (List (ℤ × ServoState)) :=
    if servos.isEmpty then none
    else some (servos.foldl (fun l s => aset l s ⟨500, 2500, none⟩) [])
  let adcCfg : Option (List (ℤ × ADCState)) :=
    if adcs.isEmpty then none
    else some (adcs.foldl (fun l a => aset l a ⟨default_adc_divisor, 0, none, none⟩) [])
  let ledCfg : Option (List (ℤ × LEDState)) :=
    if leds.isEmpty then none
    else some (leds.foldl (fun l d => aset l d ⟨1, 1, 1, (0, 0, 0)⟩) [])
  { backend := backend, motors := motors, servos := servos, adcs := adcs,
    leds := leds, reg := ⟨motorCfg, servoCfg, adcCfg, ledCfg⟩, rawCalls := 0 }

/-- The Motor object for index m, when one exists. -/
def motorStateOf (b : Board) (m : ℤ) : Option MotorState :=
  match b.reg.motors with
  | none => none
  | some l => alookup l m

/-- The Servo object for index s, when one exists. -/
def servoStateOf (b : Board) (s : ℤ) : Option ServoState :=
  match b.reg.servos with
  | none => none
  | some l => alookup l s

/-- The ADC object for index a, when one exists. -/
def adcStateOf (b : Board) (a : ℤ) : Option ADCState :=
  match b.reg.adcs with
  | none => none
  | some l => alookup l a

/-- The LED object for index d, when one exists. -/
def ledStateOf (b : Board) (d : ℤ) : Option LEDState :=
  match b.reg.leds with
  | none => none
  | some l => alookup l d

/-- Board with the motors part of _config replaced. -/
def Board.withMotors (b : Board) (l : List (ℤ × MotorState)) : Board :=
  { b with reg := { b.reg with motors := some l } }

/-- Board with the servos part of _config replaced. -/
def Board.withServos (b : Board) (l : List (ℤ × ServoState)) : Board :=
  { b with reg := { b.reg with servos := some l } }

/-- Board with the adcs part of _config replaced. -/
def Board.withAdcs (b : Board) (l : List (ℤ × ADCState)) : Board :=
  { b with reg := { b.reg with adcs := some l } }

/-- Board with the leds part of _config replaced. -/
def Board.withLeds (b : Board) (l : List (ℤ × LEDState)) : Board :=
  { b with reg := { b.reg with leds := some l } }

/-! ## motors.py -/

/-- Embeds SetMotorsMixin.set_motor_speed. Calling it on a board whose
dynamic class lacks the mixin is an AttributeError; with the mixin, the
speed is clamped by check_range, stored on the Motor object, and the
backend primitive receives it negated when invert is set. -/
def set_motor_speed (b : Board) (motor : ℤ) (speed : ℚ) :
    Except PyError (Board × List Event) :=
  if !b.hasMotorMixin then .error .attributeError
  else match b.reg.motors with
    | none => .error .valueError
    | some l =>
      match alookup l motor with
      | none => .error .valueError
      | some cfg =>
        let speed := check_range speed
        .ok (b.withMotors (aset l motor { cfg with value := some speed }),
             [.setMotorSpeed motor (if cfg.invert then -speed else speed)])

/-- Embeds Motor.set_value (the mXX / motorXX property setter):
multiplies the input by the stored scale, then delegates to
board.set_motor_speed. AttributeError when the property was never
injected (no such motor index). -/
def motor_set_value (b : Board) (motor : ℤ) (value : ℚ) :
    Except PyError (Board × List Event) :=
  match motorStateOf b motor with
  | none => .error .attributeError
  | some m => set_motor_speed b motor (value * m.scale)

/-- Embeds Motor.get_value (the mXX property getter): returns the Motor
object's stored value. -/
def motor_get_value (b : Board) (motor : ℤ) : Option (Option ℚ) :=
  (motorStateOf b motor).map (·.value)

/-- Embeds Motor.set_invert for a boolean argument (the non-boolean
ValueError branch concerns inputs outside this embedding's Bool type):
stores the flag and, when a value was previously commanded, re-issues
board.set_motor_speed with the stored value times the stored scale. -/
def motor_set_invert (b : Board) (motor : ℤ) (value : Bool) :
    Except PyError (Board × List Event) :=
  match b.reg.motors with
  | none => .error .attributeError
  | some l =>
    match alookup l motor with
    | none => .error .attributeError
    | some m =>
      let m1 := { m with invert := value }
      let b1 := b.withMotors (aset l motor m1)
      match m1.value with
      | none => .ok (b1, [])
      | some v => set_motor_speed b1 motor (v * m1.scale)

/-- Embeds Motor.set_scale for a numeric argument: stores
check_positive_range of the input and, when a value was previously
commanded, re-issues board.set_motor_speed with the stored value times
the new scale. -/
def motor_set_scale (b : Board) (motor : ℤ) (value : ℚ) :
    Except PyError (Board × List Event) :=
  match b.reg.motors with
  | none => .error .attributeError
  | some l =>
    match alookup l motor with
    | none => .error .attributeError
    | some m =>
      let m1 := { m with scale := check_positive_range value }
      let b1 := b.withMotors (aset l motor m1)
      match m1.value with
      | none => .ok (b1, [])
      | some v => set_motor_speed b1 motor (v * m1.scale)

/-! ## servos.py -/

/-- Embeds SetServosMixin.set_servo (position is a number; the None and
non-numeric ValueError branches concern inputs outside ℚ): clamps the
position, stores it, and sends
int(centre - scale * (-position)) microseconds to the backend, where
scale = (pulse_max - pulse_min)/2 and centre = (pulse_max + pulse_min)/2. -/
def set_servo (b : Board) (servo : ℤ) (position : ℚ) :
    Except PyError (Board × List Event) :=
  if !b.hasServoMixin then .error .attributeError
  else match b.reg.servos with
    | none => .error .valueError
    | some l =>
      match alookup l servo with
      | none => .error .valueError
      | some cfg =>
        let position := check_range position
        let position' := -position
        let scale : ℚ := ((cfg.pulse_max : ℚ) - (cfg.pulse_min : ℚ)) / 2
        let centre : ℚ := ((cfg.pulse_max : ℚ) + (cfg.pulse_min : ℚ)) / 2
        .ok (b.withServos (aset l servo { cfg with value := some position }),
             [.setServoPulsewidth servo (pyInt (centre - scale * position'))])

/-- Embeds SetServosMixin.disable_servo: clears the stored position and
sends pulse width 0 to the backend. -/
def disable_servo (b : Board) (servo : ℤ) :
    Except PyError (Board × List Event) :=
  if !b.hasServoMixin then .error .attributeError
  else match b.reg.servos with
    | none => .error .valueError
    | some l =>
      match alookup l servo with
      | none => .error .valueError
      | some cfg =>
        .ok (b.withServos (aset l servo { cfg with value := none }),
             [.setServoPulsewidth servo 0])

/-- Embeds Servo.set_value (the sXX / servoXX property setter): None
disables the servo, any other value is forwarded to board.set_servo. -/
def servo_set_value (b : Board) (servo : ℤ) (value : Option ℚ) :
    Except PyError (Board × List Event) :=
  match servoStateOf b servo with
  | none => .error .attributeError
  | some _ =>
    match value with
    | some v => set_servo b servo v
    | none => disable_servo b servo

/-- Embeds Servo.get_value: the stored position, None when disabled. -/
def servo_get_value (b : Board) (servo : ℤ) : Option (Option ℚ) :=
  (servoStateOf b servo).map (·.value)

/-- Embeds Servo.set_config for a pair of optional ints (the non-int
ValueError branches concern inputs outside this type). Python truthiness:
a bound of 0 keeps the previous bound, like None. pulse_max is clamped to
at most 2500, pulse_min to at least 500, independently; when a position
is active the servo is re-set under the new mapping. -/
def servo_set_config (b : Board) (servo : ℤ) (pmin pmax : Option ℤ) :
    Except PyError (Board × List Event) :=
  match b.reg.servos with
  | none => .error .attributeError
  | some l =>
    match alookup l servo with
    | none => .error .attributeError
    | some st =>
      let newMin := match pmin with
        | none => st.pulse_min
        | some x => if x = 0 then st.pulse_min else x
      let newMax := match pmax with
        | none => st.pulse_max
        | some x => if x = 0 then st.pulse_max else x
      let st' := { st with pulse_min := max newMin 500,
                           pulse_max := min newMax 2500 }
      let b1 := b.withServos (aset l servo st')
      match st'.value with
      | none => .ok (b1, [])
      | some v => set_servo b1 servo v

/-- Embeds Servo.get_config: the (pulse_min, pulse_max) pair. -/
def servo_get_config (b : Board) (servo : ℤ) : Option (ℤ × ℤ) :=
  (servoStateOf b servo).map (fun st => (st.pulse_min, st.pulse_max))

/-! ## adcs.py -/

/-- Embeds ADC.set_divisor: stores the value with no validation at all. -/
def adc_set_divisor (b : Board) (adc : ℤ) (value : ℚ) :
    Except PyError (Board × List Event) :=
  match b.reg.adcs with
  | none => .error .attributeError
  | some l =>
    match alookup l adc with
    | none => .error .attributeError
    | some st => .ok (b.withAdcs (aset l adc { st with divisor := value }), [])

/-- Embeds ADC.set_cache_time for a numeric argument: negative values are
a ValueError, otherwise the window is stored. -/
def adc_set_cache_time (b : Board) (adc : ℤ) (value : ℚ) :
    Except PyError (Board × List Event) :=
  match b.reg.adcs with
  | none => .error .attributeError
  | some l =>
    match alookup l adc with
    | none => .error .attributeError
    | some st =>
      if value < 0 then .error .valueError
      else .ok (b.withAdcs (aset l adc { st with cache_time := value }), [])

/-- Embeds ReadADCsMixin.read_adc, with the ambient clock time.time()
passed in as now. With cache_time = 0 a fresh raw read always happens;
otherwise a fresh read happens exactly when there is no prior stamp or
the stamp is strictly older than now - cache_time, and then the stamp is
set to now. A fresh read divides the raw backend sample by the divisor
(Python raises ZeroDivisionError when the divisor is zero; in the source
the raw read textually precedes the division, which this Except model
collapses into the error result) and rounds to the requested digits,
storing and returning the result; a cached read returns the stored value
with no backend call and no state change. -/
def read_adc (b : Board) (adc : ℤ) (digits : ℕ) (now : ℚ) :
    Except PyError (Option ℚ × Board × List Event) :=
  if !b.hasAdcMixin then .error .attributeError
  else match b.reg.adcs with
    | none => .error .valueError
    | some l =>
      match alookup l adc with
      | none => .error .valueError
      | some a =>
        let step : Bool × ADCState :=
          if a.cache_time = 0 then (true, a)
          else match a.last_reading_time with
            | none => (true, { a with last_reading_time := some now })
            | some t =>
              if t < now - a.cache_time then
                (true, { a with last_reading_time := some now })
              else (false, a)
        if step.1 then
          if step.2.divisor = 0 then .error .zeroDivisionError
          else
            let raw := b.backend.rawAdc adc b.rawCalls
            let adjusted := pyRound (raw / step.2.divisor) digits
            let a2 := { step.2 with last_reading_value := some adjusted }
            .ok (some adjusted,
                 { b.withAdcs (aset l adc a2) with rawCalls := b.rawCalls + 1 },
                 [.readAdcRaw adc])
        else .ok (step.2.last_reading_value, b, [])

/-! ## leds.py -/

/-- Embeds colorsys.rgb_to_hsv from the Python standard library (a
dependency of leds.set_led_rgb), exact on rationals. -/
def rgb_to_hsv (r g b : ℚ) : ℚ × ℚ × ℚ :=
  let maxc := max r (max g b)
  let minc := min r (min g b)
  let v := maxc
  if minc = maxc then (0, 0, v)
  else
    let s := (maxc - minc) / maxc
    let rc := (maxc - r) / (maxc - minc)
    let gc := (maxc - g) / (maxc - minc)
    let bc := (maxc - b) / (maxc - minc)
    let h := if r = maxc then bc - gc
             else if g = maxc then 2 + rc - bc
             else 4 + gc - rc
    (pyFract (h / 6), s, v)

/-- Embeds SetLEDsMixin.set_led_hsv: hue is wrapped mod 1.0, saturation
and value go through check_positive (lower bound only), the triple is
stored, and _update_led pushes the derived colour to the backend (the
ledUpdate event records the state that determines that push). -/
def set_led_hsv (b : Board) (led : ℤ) (h s v : ℚ) :
    Except PyError (Board × List Event) :=
  if !b.hasLedMixin then .error .attributeError
  else match b.reg.leds with
    | none => .error .valueError
    | some l =>
      match alookup l led with
      | none => .error .valueError
      | some st =>
        let st' := { st with hsv := (pyFract h, check_positive s, check_positive v) }
        .ok (b.withLeds (aset l led st'), [.ledUpdate led st'])

/-- Embeds SetLEDsMixin.set_led_rgb: each component goes through
check_positive, the result is converted with colorsys.rgb_to_hsv and
delegated to set_led_hsv. -/
def set_led_rgb (b : Board) (led : ℤ) (r g bl : ℚ) :
    Except PyError (Board × List Event) :=
  if !b.hasLedMixin then .error .attributeError
  else
    let r := check_positive r
    let g := check_positive g
    let bl := check_positive bl
    let hsv := rgb_to_hsv r g bl
    set_led_hsv b led hsv.1 hsv.2.1 hsv.2.2

/-- A value written to the ledXX property: either a tuple of numbers or a
colour-name string. -/
inductive ColourValue where
  | tuple (cs : List ℚ)
  | name (n : String)

/-- Modelled from the spec: css4_colours.py (the CSS4_COLOURS table) is
not under src/; per the spec it is a fixed table of standard named
colours, stored here as HSV triples ready to pass to set_led_hsv. Only a
representative sample of the CSS4 names is listed; the claims depend only
on membership of a name in the table. -/
def CSS4_COLOURS : List (String × (ℚ × ℚ × ℚ)) :=
  [("red", (0, 1, 1)), ("lime", (1/3, 1, 1)), ("blue", (2/3, 1, 1)),
   ("yellow", (1/6, 1, 1)), ("white", (0, 0, 1)), ("black", (0, 0, 0)),
   ("pink", (350/360, 1/4, 1))]

/-- Embeds LED.set_colour (the ledXX property setter): a tuple is
splatted into board.set_led_hsv (a tuple whose length is not 3 makes that
call a Python TypeError for wrong arity); a known colour name is looked
up and its HSV passed to board.set_led_hsv; anything else logs a warning
and changes nothing. -/
def led_set_colour (b : Board) (led : ℤ) (value : ColourValue) :
    Except PyError (Board × List Event) :=
  match value with
  | .tuple cs =>
    if !b.hasLedMixin then .error .attributeError
    else match cs with
      | [h, s, v] => set_led_hsv b led h s v
      | _ => .error .typeError
  | .name n =>
    match CSS4_COLOURS.find? (fun p => p.1 == n) with
    | some p => set_led_hsv b led p.2.1 p.2.2.1 p.2.2.2
    | none => .ok (b, [])

/-- Embeds LED.set_colour_rgb (the ledXX_rgb property setter): only a
tuple of length 3 does anything; any other value is silently ignored. -/
def led_set_colour_rgb (b : Board) (led : ℤ) (value : List ℚ) :
    Except PyError (Board × List Event) :=
  match value with
  | [r, g, bl] => set_led_rgb b led r g bl
  | _ => .ok (b, [])

/-- Embeds LED.get_colour: the stored HSV triple. -/
def led_get_colour (b : Board) (led : ℤ) : Option (ℚ × ℚ × ℚ) :=
  (ledStateOf b led).map (·.hsv)

/-! ## Board.stop and Board.config (__init__.py) -/

/-- Runs one per-index operation over a list of indices in order,
threading the board, concatenating the emitted backend calls, and
propagating the first raised exception. -/
def runSeq (f : Board → ℤ → Except PyError (Board × List Event)) :
    Board → List ℤ → Except PyError (Board × List Event)
  | b, [] => .ok (b, [])
  | b, i :: rest =>
    match f b i with
    | .error e => .error e
    | .ok (b1, e1) =>
      match runSeq f b1 rest with
      | .error e => .error e
      | .ok (b2, e2) => .ok (b2, e1 ++ e2)

/-- Embeds Board.stop: every motor in the captured motors list is set to
speed 0, then every servo is disabled, then every LED is set to HSV
(0, 0, 0), then the backend's _stop hook runs when it exists. -/
def Board.stop (b : Board) : Except PyError (Board × List Event) :=
  match runSeq (fun bb m => set_motor_speed bb m 0) b b.motors with
  | .error e => .error e
  | .ok (b1, e1) =>
    match runSeq (fun bb s => disable_servo bb s) b1 b1.servos with
    | .error e => .error e
    | .ok (b2, e2) =>
      match runSeq (fun bb d => set_led_hsv bb d 0 0 0) b2 b2.leds with
      | .error e => .error e
      | .ok (b3, e3) =>
        let e4 := if b3.backend.hasStop then [Event.stopHook] else []
        .ok (b3, e1 ++ e2 ++ e3 ++ e4)

/-- Entry of the config dict for one motor, as built by the Motor.config
property getter. -/
structure MotorConfigEntry where
  invert : Bool
  scale : ℚ
deriving DecidableEq, Repr

/-- Entry of the config dict for one ADC channel, as built by the
ADC.config property getter. -/
structure ADCConfigEntry where
  divisor : ℚ
  cache_time : ℚ
deriving DecidableEq, Repr

/-- The nested mapping returned by the Board.config property getter. The
Servo class defines no config attribute, so the servo part can only ever
be materialised when it is empty. -/
structure ConfigDict where
  adcs : Option (List (ℤ × ADCConfigEntry))
  motors : Option (List (ℤ × MotorConfigEntry))
  servos : Option (List (ℤ × Unit))
deriving DecidableEq, Repr

/-- Embeds the Board.config property getter: adcs and motors are read
through their config properties; for servos the comprehension evaluates
s.config, an attribute the Servo class never defines, so any servo entry
raises AttributeError. -/
def board_config (b : Board) : Except PyError ConfigDict :=
  let adcsPart := b.reg.adcs.map
    (List.map (fun p => (p.1, ADCConfigEntry.mk p.2.divisor p.2.cache_time)))
  let motorsPart := b.reg.motors.map
    (List.map (fun p => (p.1, MotorConfigEntry.mk p.2.invert p.2.scale)))
  match b.reg.servos with
  | none => .ok ⟨adcsPart, motorsPart, none⟩
  | some l =>
    if l.isEmpty then .ok ⟨adcsPart, motorsPart, some []⟩
    else .error .attributeError

/-! ## Helpers for stating facts about results, and concrete scenarios -/

/-- Whether a call completed without raising. -/
def isOkE {ε α : Type} : Except ε α → Bool
  | .ok _ => true
  | .error _ => false

instance {ε α : Type} [DecidableEq ε] [DecidableEq α] :
    DecidableEq (Except ε α) := fun x y =>
  match x, y with
  | .ok a, .ok b =>
    if h : a = b then .isTrue (by rw [h])
    else .isFalse (by intro hh; injection hh; contradiction)
  | .ok _, .error _ => .isFalse (by intro hh; exact Except.noConfusion hh)
  | .error _, .ok _ => .isFalse (by intro hh; exact Except.noConfusion hh)
  | .error e, .error f =>
    if h : e = f then .isTrue (by rw [h])
    else .isFalse (by intro hh; injection hh; contradiction)

/-- The board after a call, with a fallback for the raising case. -/
def boardOf (r : Except PyError (Board × List Event)) (d : Board) : Board :=
  match r with
  | .ok (b, _) => b
  | .error _ => d

/-- The board after a read_adc call, with a fallback. -/
def boardOfRead (r : Except PyError (Option ℚ × Board × List Event))
    (d : Board) : Board :=
  match r with
  | .ok (_, b, _) => b
  | .error _ => d

/-- The backend calls a successful call made. -/
def eventsOf (r : Except PyError (Board × List Event)) : Option (List Event) :=
  match r with
  | .ok (_, e) => some e
  | .error _ => none

/-- Returned value and backend calls of a successful read_adc call. -/
def readOut (r : Except PyError (Option ℚ × Board × List Event)) :
    Option (Option ℚ × List Event) :=
  match r with
  | .ok (v, _, e) => some (v, e)
  | .error _ => none

/-- The freshness test of read_adc when caching is enabled, as the code
computes it: fresh when there is no prior stamp, or the stamp is strictly
older than now - cache_time. -/
def staleAt (a : ADCState) (now : ℚ) : Bool :=
  match a.last_reading_time with
  | none => true
  | some t => decide (t < now - a.cache_time)

/-- A driver object defining all four primitives and _stop; successive
raw ADC reads return 7891, 15782, 23673, ... so that distinct raw reads
are observable after division by the default divisor. -/
def fullBackend : Backend :=
  ⟨true, true, true, true, true, fun _ n => (7891 : ℚ) * ((n : ℚ) + 1)⟩

/-- A driver object lacking _set_servo_pulsewidth. -/
def noServoBackend : Backend :=
  ⟨true, false, true, true, true, fun _ _ => 0⟩

/-- A board with one motor, index 0. -/
def mBoard : Board := add_properties fullBackend [0] [] [] [] 7891

/-- A board with one servo, index 0. -/
def sBoard : Board := add_properties fullBackend [] [0] [] [] 7891

/-- A board with one ADC channel, index 0. -/
def aBoard : Board := add_properties fullBackend [] [] [0] [] 7891

/-- A board with one LED, index 0. -/
def lBoard : Board := add_properties fullBackend [] [] [] [0] 7891

/-- mBoard after m0_invert = True (no speed was commanded yet). -/
def c3board1 : Board := boardOf (motor_set_invert mBoard 0 true) mBoard

/-- c3board1 after m0_scale = 0.5 (still no speed commanded). -/
def c3board2 : Board := boardOf (motor_set_scale c3board1 0 (1/2)) c3board1

/-- sBoard after s0_config = (1000, 2000). -/
def c4board1 : Board :=
  boardOf (servo_set_config sBoard 0 (some 1000) (some 2000)) sBoard

/-- mBoard after m0 = 0.5 (invert False, scale 1.0). -/
def c5board1 : Board := boardOf (motor_set_value mBoard 0 (1/2)) mBoard

/-- c5board1 after m0_scale = 0.5. -/
def c5board2 : Board := boardOf (motor_set_scale c5board1 0 (1/2)) c5board1

/-- aBoard after adc0_cache_time = 10. -/
def c8board1 : Board := boardOf (adc_set_cache_time aBoard 0 10) aBoard

/-- c8board1 after one read at time 0. -/
def c8board2 : Board := boardOfRead (read_adc c8board1 0 2 0) c8board1

/-- A board with two motors, one servo and one LED, for stop(). -/
def c9board : Board := add_properties fullBackend [0, 1] [2] [] [3] 7891

/-- aBoard after adc0_divisor = 0. -/
def c10board1 : Board := boardOf (adc_set_divisor aBoard 0 0) aBoard

/-! ## Shared lemmas about the dict model -/

theorem alookup_aset {α : Type} (l : List (ℤ × α)) (k k' : ℤ) (v : α) :
    alookup (aset l k v) k' = if k' = k then some v else alookup l k' := by
  induction l with
  | nil =>
    by_cases h : k' = k
    · subst h; simp [aset, alookup]
    · simp [aset, alookup, h, Ne.symm h]
  | cons p rest ih =>
    by_cases hp : p.1 = k
    · subst hp
      by_cases h : k' = p.1
      · subst h; simp [aset, alookup]
      · simp [aset, alookup, h, Ne.symm h]
    · by_cases hq : p.1 = k'
      · subst hq
        have h : ¬ p.1 = k := hp
        simp [aset, alookup, h, fun hh : p.1 = k => h hh]
      · by_cases h : k' = k
        · subst h
          simp [aset, alookup, hp, hq, ih]
        · simp [aset, alookup, hp, hq, h, ih]

/-- Clamping preserves zero. -/
theorem check_range_zero : check_range 0 = 0 := by decide

/-- How set_motor_speed behaves on a well-formed board: the clamped
speed is stored on the Motor object and the backend primitive receives
it, negated exactly when invert is set. -/
theorem set_motor_speed_ok (b : Board) (motor : ℤ) (speed : ℚ)
    (l : List (ℤ × MotorState)) (m : MotorState)
    (hmix : b.hasMotorMixin = true) (hl : b.reg.motors = some l)
    (hm : alookup l motor = some m) :
    set_motor_speed b motor speed
      = .ok (b.withMotors (aset l motor { m with value := some (check_range speed) }),
             [.setMotorSpeed motor
               (if m.invert then -(check_range speed) else check_range speed)]) := by
  simp [set_motor_speed, hmix, hl, hm]

/-! ## C1 -/

/-- C1: counterexample. Composing a backend that lacks
_set_servo_pulsewidth with requested servo indices [0] yields a board
whose _config mapping does contain a 'servos' entry, holding one servo
channel with the default configuration, contrary to the claim that such a
board has zero servo channels and no 'servos' entry. -/
theorem c1_counterexample :
    (add_properties noServoBackend [] [0] [] [] 7891).reg.servos
      = some [(0, ⟨500, 2500, none⟩)]
    ∧ (add_properties noServoBackend [] [0] [] [] 7891).reg.servos ≠ none := by
  refine ⟨by decide, by decide⟩

/-- C1 amended: the backend-capability check gates only the injection of
the kind's mixin methods. For the servo kind: with a backend lacking
_set_servo_pulsewidth and a non-empty requested servo list, the composed
board has no SetServosMixin (so set_servo raises AttributeError), but the
servo channel objects are still created and the 'servos' entry is still
present in the board's _config mapping. -/
theorem c1_theorem (backend : Backend) (motors servos adcs leds : List ℤ)
    (dd : ℚ) (hprim : backend.hasSetServoPulsewidth = false)
    (hne : servos ≠ []) :
    (add_properties backend motors servos adcs leds dd).hasServoMixin = false
    ∧ (add_properties backend motors servos adcs leds dd).reg.servos.isSome
        = true
    ∧ ∀ s p, set_servo (add_properties backend motors servos adcs leds dd) s p
        = .error .attributeError := by
  have hmix : (add_properties backend motors servos adcs leds dd).hasServoMixin
      = false := by
    simp [add_properties, Board.hasServoMixin, hprim]
  refine ⟨hmix, ?_, ?_⟩
  · cases servos with
    | nil => exact absurd rfl hne
    | cons a t => simp [add_properties]
  · intro s p
    unfold set_servo
    rw [hmix]
    rfl

/-- C1 witness: the amended statement at the concrete servoless backend
with servos=[0]. -/
theorem c1_witness :
    (noServoBackend.hasSetServoPulsewidth = false ∧ ([0] : List ℤ) ≠ [])
    ∧ ((add_properties noServoBackend [] [0] [] [] 7891).hasServoMixin = false
       ∧ (add_properties noServoBackend [] [0] [] [] 7891).reg.servos.isSome
           = true
       ∧ ∀ s p, set_servo (add_properties noServoBackend [] [0] [] [] 7891) s p
           = .error .attributeError) :=
  ⟨⟨by decide, by decide⟩,
   c1_theorem noServoBackend [] [0] [] [] 7891 (by decide) (by decide)⟩

/-! ## C2 -/

/-- C2: the code evaluated at the failing input. Reading the config
property of a freshly composed board with one servo raises AttributeError
(the Servo class, unlike Motor and ADC, defines no config attribute, yet
the Board.config getter reads s.config for every servo), so the claimed
round trip cannot even start; a board with only motor and ADC channels
does read its config successfully. -/
theorem c2_code_bug_eval :
    board_config sBoard = .error .attributeError
    ∧ board_config (add_properties fullBackend [3] [] [7] [] 7891)
        = .ok ⟨some [(7, ⟨7891, 0⟩)], some [(3, ⟨false, 1⟩)], none⟩ := by
  refine ⟨by decide, by decide⟩

/-! ## C4 -/

/-- C4: counterexample. With pulse_min=1000 and pulse_max=2000, writing
position 1.0 commands pulse width 2000 to the backend, not the claimed
1000: set_servo maps +1 to pulse_max. -/
theorem c4_counterexample :
    eventsOf (servo_set_value c4board1 0 (some 1))
      = some [.setServoPulsewidth 0 2000]
    ∧ (2000 : ℤ) ≠ 1000 := by
  refine ⟨by decide, by decide⟩

/-- C4 amended: with pulse_min=1000 and pulse_max=2000, set(1.0) commands
pulse width 2000 (pulse_max), set(-1.0) commands 1000 (pulse_min), and
set(None) commands 0 (disable). -/
theorem c4_theorem :
    servo_get_config c4board1 0 = some (1000, 2000)
    ∧ eventsOf (servo_set_value c4board1 0 (some 1))
        = some [.setServoPulsewidth 0 2000]
    ∧ eventsOf (servo_set_value c4board1 0 (some (-1)))
        = some [.setServoPulsewidth 0 1000]
    ∧ eventsOf (servo_set_value c4board1 0 none)
        = some [.setServoPulsewidth 0 0] := by
  refine ⟨by decide, by decide, by decide, by decide⟩

/-! ## C3 -/

/-- C3: counterexample. On a motor with scale=0.5 and invert=true (and no
previously commanded value), writing 0.5 to the motor property sends
-0.25 to the backend, as the claim says, but the getter afterwards
returns 0.25, not the claimed 0.5: the stored value is the post-scale
clamped value, not the pre-transform input. -/
theorem c3_counterexample :
    eventsOf (motor_set_value c3board2 0 (1/2))
      = some [.setMotorSpeed 0 (-(1/4))]
    ∧ (match motor_set_value c3board2 0 (1/2) with
        | .ok (b, _) => motor_get_value b 0
        | .error _ => none)
      = some (some (1/4))
    ∧ ((1 : ℚ)/4) ≠ (1/2) := by
  refine ⟨by decide, by decide, by decide⟩

/-- C3 amended: the value stored by a motor property write (and returned
by the getter) is check_range(input * scale), i.e. the post-scale clamped
value, not the pre-transform input; the backend receives that same value,
negated when invert is set. In the claim's scenario (scale=0.5,
invert=true, set(0.5)) the backend receives -0.25 and get() returns
0.25. -/
theorem c3_theorem (b : Board) (motor : ℤ) (l : List (ℤ × MotorState))
    (m : MotorState) (v : ℚ)
    (hmix : b.hasMotorMixin = true) (hl : b.reg.motors = some l)
    (hm : alookup l motor = some m) :
    ∃ b', motor_set_value b motor v
        = .ok (b', [.setMotorSpeed motor
            (if m.invert then -(check_range (v * m.scale))
             else check_range (v * m.scale))])
      ∧ motor_get_value b' motor = some (some (check_range (v * m.scale))) := by
  refine ⟨b.withMotors (aset l motor
    { m with value := some (check_range (v * m.scale)) }), ?_, ?_⟩
  · have h1 : motorStateOf b motor = some m := by
      unfold motorStateOf
      rw [hl]
      exact hm
    unfold motor_set_value
    rw [h1]
    exact set_motor_speed_ok b motor (v * m.scale) l m hmix hl hm
  · unfold motor_get_value motorStateOf Board.withMotors
    simp [alookup_aset]

/-- C3 witness: the amended statement at the concrete board c3board2
(one motor, invert=true, scale=0.5, nothing commanded yet) with input
0.5. -/
theorem c3_witness :
    (c3board2.hasMotorMixin = true
     ∧ c3board2.reg.motors = some [(0, ⟨true, 1/2, none⟩)]
     ∧ alookup [(0, (⟨true, 1/2, none⟩ : MotorState))] 0
         = some ⟨true, 1/2, none⟩)
    ∧ ∃ b', motor_set_value c3board2 0 (1/2)
          = .ok (b', [.setMotorSpeed 0 (-(check_range ((1/2) * (1/2))))])
        ∧ motor_get_value b' 0 = some (some (check_range ((1/2) * (1/2)))) :=
  ⟨⟨by decide, by decide, by decide⟩,
   c3_theorem c3board2 0 [(0, ⟨true, 1/2, none⟩)] ⟨true, 1/2, none⟩ (1/2)
     (by decide) (by decide) (by decide)⟩

/-! ## C5 -/

/-- C5: counterexample. After m0 = 0.5 (scale 1), a first m0_scale = 0.5
re-issues the backend call with 0.25, and an identical second
m0_scale = 0.5 re-issues it with 0.125: repeating set_scale with the same
scale does not send the same backend value each time, because the
re-issued product is itself stored as the new value. -/
theorem c5_counterexample :
    eventsOf (motor_set_scale c5board1 0 (1/2))
      = some [.setMotorSpeed 0 (1/4)]
    ∧ eventsOf (motor_set_scale c5board2 0 (1/2))
      = some [.setMotorSpeed 0 (1/8)]
    ∧ ((1 : ℚ)/4) ≠ (1/8) := by
  refine ⟨by decide, by decide, by decide⟩

/-- C5 amended: when a value was previously commanded, set_scale and
set_invert immediately re-issue the backend call with
check_range(stored value * scale) (negated when invert is set), where
the stored value is the post-scale value of the previous call, and this
product is re-stored as the new value; so the physical effect is applied
without a fresh set, but repeated set_scale calls with the same scale < 1
send geometrically decaying values rather than the same value. -/
theorem c5_theorem (b : Board) (motor : ℤ) (l : List (ℤ × MotorState))
    (m : MotorState) (v s : ℚ) (i : Bool)
    (hmix : b.hasMotorMixin = true) (hl : b.reg.motors = some l)
    (hm : alookup l motor = some m) (hv : m.value = some v) :
    (∃ b', motor_set_scale b motor s
        = .ok (b', [.setMotorSpeed motor
            (if m.invert then -(check_range (v * check_positive_range s))
             else check_range (v * check_positive_range s))])
      ∧ motor_get_value b' motor
          = some (some (check_range (v * check_positive_range s)))
      ∧ (motorStateOf b' motor).map MotorState.scale
          = some (check_positive_range s))
    ∧ (∃ b2, motor_set_invert b motor i
        = .ok (b2, [.setMotorSpeed motor
            (if i then -(check_range (v * m.scale))
             else check_range (v * m.scale))])
      ∧ motor_get_value b2 motor = some (some (check_range (v * m.scale)))
      ∧ (motorStateOf b2 motor).map MotorState.invert = some i) := by
  constructor
  · have hm1 : alookup (aset l motor { m with scale := check_positive_range s })
        motor = some { m with scale := check_positive_range s } := by
      rw [alookup_aset]
      simp
    refine ⟨(b.withMotors (aset l motor
        { m with scale := check_positive_range s })).withMotors
          (aset (aset l motor { m with scale := check_positive_range s }) motor
            { m with scale := check_positive_range s,
                     value := some (check_range (v * check_positive_range s)) }),
      ?_, ?_, ?_⟩
    · have e1 : motor_set_scale b motor s
          = set_motor_speed (b.withMotors (aset l motor
              { m with scale := check_positive_range s })) motor
              (v * check_positive_range s) := by
        simp only [motor_set_scale, hl, hm, hv]
      rw [e1]
      exact set_motor_speed_ok
        (b.withMotors (aset l motor { m with scale := check_positive_range s }))
        motor (v * check_positive_range s)
        (aset l motor { m with scale := check_positive_range s })
        { m with scale := check_positive_range s } hmix rfl hm1
    · unfold motor_get_value motorStateOf Board.withMotors
      simp [alookup_aset]
    · unfold motorStateOf Board.withMotors
      simp [alookup_aset]
  · have hm1 : alookup (aset l motor { m with invert := i }) motor
        = some { m with invert := i } := by
      rw [alookup_aset]
      simp
    refine ⟨(b.withMotors (aset l motor { m with invert := i })).withMotors
        (aset (aset l motor { m with invert := i }) motor
          { m with invert := i,
                   value := some (check_range (v * m.scale)) }),
      ?_, ?_, ?_⟩
    · have e1 : motor_set_invert b motor i
          = set_motor_speed (b.withMotors (aset l motor { m with invert := i }))
              motor (v * m.scale) := by
        simp only [motor_set_invert, hl, hm, hv]
      rw [e1]
      exact set_motor_speed_ok
        (b.withMotors (aset l motor { m with invert := i })) motor (v * m.scale)
        (aset l motor { m with invert := i }) { m with invert := i } hmix rfl hm1
    · unfold motor_get_value motorStateOf Board.withMotors
      simp [alookup_aset]
    · unfold motorStateOf Board.withMotors
      simp [alookup_aset]

/-- C5 witness: the amended statement at the concrete board c5board1
(one motor, invert=false, scale=1, stored value 0.5) with new scale 0.5
and new invert true. -/
theorem c5_witness :
    (c5board1.hasMotorMixin = true
     ∧ c5board1.reg.motors = some [(0, ⟨false, 1, some (1/2)⟩)]
     ∧ alookup [(0, (⟨false, 1, some (1/2)⟩ : MotorState))] 0
         = some ⟨false, 1, some (1/2)⟩
     ∧ (⟨false, 1, some (1/2)⟩ : MotorState).value = some (1/2))
    ∧ ((∃ b', motor_set_scale c5board1 0 (1/2)
        = .ok (b', [.setMotorSpeed 0
            (check_range ((1/2) * check_positive_range (1/2)))])
      ∧ motor_get_value b' 0
          = some (some (check_range ((1/2) * check_positive_range (1/2))))
      ∧ (motorStateOf b' 0).map MotorState.scale
          = some (check_positive_range (1/2)))
    ∧ (∃ b2, motor_set_invert c5board1 0 true
        = .ok (b2, [.setMotorSpeed 0 (-(check_range ((1/2) * 1)))])
      ∧ motor_get_value b2 0 = some (some (check_range ((1/2) * 1)))
      ∧ (motorStateOf b2 0).map MotorState.invert = some true)) :=
  ⟨⟨by decide, by decide, by decide, by decide⟩,
   c5_theorem c5board1 0 [(0, ⟨false, 1, some (1/2)⟩)] ⟨false, 1, some (1/2)⟩
     (1/2) (1/2) true (by decide) (by decide) (by decide) (by decide)⟩

/-! ## C6 -/

/-- C6: counterexample. set_led_hsv with saturation 2 and value 3 stores
them unchanged as (0, 2, 3) rather than clamping them to 1.0, and
set_led_rgb with blue component 2 stores value 2: saturation and value
are only clamped from below at 0, not into [0,1]. -/
theorem c6_counterexample :
    (match set_led_hsv lBoard 0 0 2 3 with
      | .ok (b, _) => led_get_colour b 0
      | .error _ => none) = some (0, 2, 3)
    ∧ (match set_led_rgb lBoard 0 0 0 2 with
      | .ok (b, _) => led_get_colour b 0
      | .error _ => none) = some (2/3, 1, 2)
    ∧ ((2 : ℚ) ≠ 1) ∧ ((3 : ℚ) ≠ 1) := by
  refine ⟨by decide, by decide, by decide, by decide⟩

/-- C6 amended: set_led_hsv stores hue mod 1.0 and stores saturation and
value after check_positive, which clamps only the lower bound at 0; an
input saturation or value greater than 1.0 is stored unchanged (and the
RGB path, which feeds the rgb_to_hsv conversion of the check_positive'd
components into set_led_hsv, inherits the same behaviour). -/
theorem c6_theorem (b : Board) (led : ℤ) (l : List (ℤ × LEDState))
    (st : LEDState) (h s v : ℚ)
    (hmix : b.hasLedMixin = true) (hl : b.reg.leds = some l)
    (hst : alookup l led = some st) :
    ∃ b', set_led_hsv b led h s v
        = .ok (b', [.ledUpdate led
            { st with hsv := (pyFract h, check_positive s, check_positive v) }])
      ∧ led_get_colour b' led
          = some (pyFract h, check_positive s, check_positive v)
      ∧ (1 < s → check_positive s = s) ∧ (1 < v → check_positive v = v) := by
  refine ⟨b.withLeds (aset l led
    { st with hsv := (pyFract h, check_positive s, check_positive v) }),
    ?_, ?_, ?_, ?_⟩
  · simp [set_led_hsv, hmix, hl, hst]
  · unfold led_get_colour ledStateOf Board.withLeds
    simp [alookup_aset]
  · intro hs
    have hns : ¬ s < 0 := by linarith
    simp [check_positive, hns]
  · intro hv
    have hnv : ¬ v < 0 := by linarith
    simp [check_positive, hnv]

/-- C6 witness: the amended statement at the concrete LED board with
inputs h=0, s=2, v=3. -/
theorem c6_witness :
    (lBoard.hasLedMixin = true
     ∧ lBoard.reg.leds = some [(0, ⟨1, 1, 1, (0, 0, 0)⟩)]
     ∧ alookup [(0, (⟨1, 1, 1, (0, 0, 0)⟩ : LEDState))] 0
         = some ⟨1, 1, 1, (0, 0, 0)⟩)
    ∧ ∃ b', set_led_hsv lBoard 0 0 2 3
        = .ok (b', [.ledUpdate 0
            ⟨1, 1, 1, (pyFract 0, check_positive 2, check_positive 3)⟩])
      ∧ led_get_colour b' 0
          = some (pyFract 0, check_positive 2, check_positive 3)
      ∧ ((1 : ℚ) < 2 → check_positive 2 = 2)
      ∧ ((1 : ℚ) < 3 → check_positive 3 = 3) :=
  ⟨⟨by decide, by decide, by decide⟩,
   c6_theorem lBoard 0 [(0, ⟨1, 1, 1, (0, 0, 0)⟩)] ⟨1, 1, 1, (0, 0, 0)⟩ 0 2 3
     (by decide) (by decide) (by decide)⟩

/-! ## C7 -/

/-- C7: counterexample. Setting a colour by a name that is not in the
colour table succeeds silently (it returns with no backend call and the
board unchanged, only logging a warning); it does not fail with any
error, let alone an InvalidColor one. -/
theorem c7_counterexample :
    led_set_colour lBoard 0 (.name "nosuchcolour") = .ok (lBoard, [])
    ∧ isOkE (led_set_colour lBoard 0 (.name "nosuchcolour")) = true := by
  exact ⟨rfl, rfl⟩

/-- C7 amended: an unknown colour name is ignored with a logged warning,
leaving the channel state unchanged and raising nothing; a tuple of the
wrong length written to the rgb property is silently ignored; a tuple of
the wrong length written to the colour property raises a plain TypeError
from the arity mismatch. No InvalidColor error exists in the code. -/
theorem c7_theorem (b : Board) (led : ℤ) (n : String) (cs : List ℚ)
    (hmix : b.hasLedMixin = true)
    (hname : CSS4_COLOURS.find? (fun p => p.1 == n) = none)
    (hlen : cs.length ≠ 3) :
    led_set_colour b led (.name n) = .ok (b, [])
    ∧ led_set_colour_rgb b led cs = .ok (b, [])
    ∧ led_set_colour b led (.tuple cs) = .error .typeError := by
  refine ⟨?_, ?_, ?_⟩
  · simp [led_set_colour, hname]
  · match cs, hlen with
    | [], _ => rfl
    | [a], _ => rfl
    | [a, b1], _ => rfl
    | [a, b1, c1], hl => exact absurd rfl hl
    | a :: b1 :: c1 :: d1 :: rest, _ => rfl
  · match cs, hlen with
    | [], _ => simp [led_set_colour, hmix]
    | [a], _ => simp [led_set_colour, hmix]
    | [a, b1], _ => simp [led_set_colour, hmix]
    | [a, b1, c1], hl => exact absurd rfl hl
    | a :: b1 :: c1 :: d1 :: rest, _ => simp [led_set_colour, hmix]

/-- C7 witness: the amended statement at the concrete LED board, the
unknown name "nosuchcolour" and the length-2 tuple [1, 2]. -/
theorem c7_witness :
    (lBoard.hasLedMixin = true
     ∧ CSS4_COLOURS.find? (fun p => p.1 == "nosuchcolour") = none
     ∧ ([(1 : ℚ), 2]).length ≠ 3)
    ∧ (led_set_colour lBoard 0 (.name "nosuchcolour") = .ok (lBoard, [])
       ∧ led_set_colour_rgb lBoard 0 [1, 2] = .ok (lBoard, [])
       ∧ led_set_colour lBoard 0 (.tuple [1, 2]) = .error .typeError) :=
  ⟨⟨by decide, by decide, by decide⟩,
   c7_theorem lBoard 0 "nosuchcolour" [1, 2] (by decide) (by decide) (by decide)⟩

/-! ## C8 -/

/-- C8: counterexample. With cache_window 10, a first read at time 0
takes exactly one raw backend read and returns 1; a second read at time
10 — where now - last_sample_time = 10 ≥ 10, so the claim requires a
fresh sample — makes no backend call, returns the cached value unchanged
and leaves the timestamp at 0: the code refreshes only when the stamp is
STRICTLY older than now - cache_window. -/
theorem c8_counterexample :
    readOut (read_adc c8board1 0 2 0) = some (some 1, [.readAdcRaw 0])
    ∧ adcStateOf c8board2 0 = some ⟨7891, 10, some 0, some 1⟩
    ∧ readOut (read_adc c8board2 0 2 10) = some (some 1, [])
    ∧ (match read_adc c8board2 0 2 10 with
        | .ok (_, b, _) => (adcStateOf b 0).map ADCState.last_reading_time
        | .error _ => none) = some (some 0)
    ∧ ((10 : ℚ) - 0 ≥ 10) := by
  refine ⟨by decide, by decide, by decide, by decide, by decide⟩

/-- C8 amended: with cache_window_seconds > 0 (and a non-zero divisor), a
read takes a fresh backend sample — updating both the timestamp and the
cached value — exactly when no prior sample exists or
now - last_sample_time > cache_window_seconds (strictly greater, not ≥);
otherwise it returns the cached value unchanged without invoking the
backend raw-read primitive or advancing the timestamp. The concrete
scenario holds with the strict boundary: two reads strictly within 10
seconds make one raw read, a read strictly after the window elapses makes
a second. -/
theorem c8_theorem (b : Board) (adc : ℤ) (l : List (ℤ × ADCState))
    (a : ADCState) (digits : ℕ) (now : ℚ)
    (hmix : b.hasAdcMixin = true) (hl : b.reg.adcs = some l)
    (ha : alookup l adc = some a) (hct : a.cache_time ≠ 0)
    (hdiv : a.divisor ≠ 0) :
    read_adc b adc digits now =
      if staleAt a now then
        .ok (some (pyRound (b.backend.rawAdc adc b.rawCalls / a.divisor) digits),
             { b.withAdcs (aset l adc
                 { a with last_reading_time := some now,
                          last_reading_value := some (pyRound
                            (b.backend.rawAdc adc b.rawCalls / a.divisor)
                            digits) })
               with rawCalls := b.rawCalls + 1 },
             [.readAdcRaw adc])
      else .ok (a.last_reading_value, b, []) := by
  unfold read_adc staleAt
  simp only [hmix, Bool.not_true, if_false, hl, ha, hct]
  rcases hlr : a.last_reading_time with _ | t
  · simp [hlr, hct, hdiv]
  · by_cases hlt : t < now - a.cache_time
    · simp [hlr, hct, hlt, hdiv]
    · simp [hlr, hct, hlt]

/-- C8 witness: the amended statement at the concrete board c8board2
(cache window 10, last sample at time 0 with cached value 1) read at
time 10, where the strict staleness test is false. -/
theorem c8_witness :
    (c8board2.hasAdcMixin = true
     ∧ c8board2.reg.adcs = some [(0, ⟨7891, 10, some 0, some 1⟩)]
     ∧ alookup [(0, (⟨7891, 10, some 0, some 1⟩ : ADCState))] 0
         = some ⟨7891, 10, some 0, some 1⟩
     ∧ (⟨7891, 10, some 0, some 1⟩ : ADCState).cache_time ≠ 0
     ∧ (⟨7891, 10, some 0, some 1⟩ : ADCState).divisor ≠ 0)
    ∧ read_adc c8board2 0 2 10 =
      (if staleAt ⟨7891, 10, some 0, some 1⟩ 10 then
        .ok (some (pyRound (c8board2.backend.rawAdc 0 c8board2.rawCalls
                / (7891 : ℚ)) 2),
             { c8board2.withAdcs (aset [(0, ⟨7891, 10, some 0, some 1⟩)] 0
                 ⟨7891, 10, some 10,
                  some (pyRound (c8board2.backend.rawAdc 0 c8board2.rawCalls
                    / (7891 : ℚ)) 2)⟩)
               with rawCalls := c8board2.rawCalls + 1 },
             [.readAdcRaw 0])
      else .ok (some 1, c8board2, [])) :=
  ⟨⟨by decide, by decide, by decide, by decide, by decide⟩,
   c8_theorem c8board2 0 [(0, ⟨7891, 10, some 0, some 1⟩)]
     ⟨7891, 10, some 0, some 1⟩ 2 10
     (by decide) (by decide) (by decide) (by decide) (by decide)⟩

/-! ## C10 -/

/-- C10: the divisor setter stores any value with no validation, and a
read that needs a fresh sample divides by the stored divisor with no zero
guard, so once the divisor is 0 the next non-cached read fails with
Python's division error: the division's error branch is reachable through
the public interface. -/
theorem c10_theorem (b : Board) (adc : ℤ) (l : List (ℤ × ADCState))
    (a : ADCState) (v : ℚ) (digits : ℕ) (now : ℚ)
    (hmix : b.hasAdcMixin = true) (hl : b.reg.adcs = some l)
    (ha : alookup l adc = some a) (hdiv : a.divisor = 0)
    (hct : a.cache_time = 0) :
    (∃ b', adc_set_divisor b adc v = .ok (b', [])
       ∧ (adcStateOf b' adc).map ADCState.divisor = some v)
    ∧ read_adc b adc digits now = .error .zeroDivisionError := by
  constructor
  · refine ⟨b.withAdcs (aset l adc { a with divisor := v }), ?_, ?_⟩
    · simp [adc_set_divisor, hl, ha]
    · unfold adcStateOf Board.withAdcs
      simp [alookup_aset]
  · simp [read_adc, hmix, hl, ha, hct, hdiv]

/-- C10 witness: the statement at the concrete board whose only ADC
channel had its divisor set to 0 through the public setter. -/
theorem c10_witness :
    (c10board1.hasAdcMixin = true
     ∧ c10board1.reg.adcs = some [(0, ⟨0, 0, none, none⟩)]
     ∧ alookup [(0, (⟨0, 0, none, none⟩ : ADCState))] 0
         = some ⟨0, 0, none, none⟩
     ∧ (⟨0, 0, none, none⟩ : ADCState).divisor = 0
     ∧ (⟨0, 0, none, none⟩ : ADCState).cache_time = 0)
    ∧ ((∃ b', adc_set_divisor c10board1 0 5 = .ok (b', [])
        ∧ (adcStateOf b' 0).map ADCState.divisor = some 5)
      ∧ read_adc c10board1 0 2 0 = .error .zeroDivisionError) :=
  ⟨⟨by decide, by decide, by decide, by decide, by decide⟩,
   c10_theorem c10board1 0 [(0, ⟨0, 0, none, none⟩)] ⟨0, 0, none, none⟩ 5 2 0
     (by decide) (by decide) (by decide) (by decide) (by decide)⟩

/-! ## C9 -/

/-- How disable_servo behaves on a well-formed board: the stored position
is cleared and the backend receives pulse width 0. -/
theorem disable_servo_ok (b : Board) (s : ℤ) (l : List (ℤ × ServoState))
    (st : ServoState)
    (hmix : b.hasServoMixin = true) (hl : b.reg.servos = some l)
    (hst : alookup l s = some st) :
    disable_servo b s
      = .ok (b.withServos (aset l s { st with value := none }),
             [.setServoPulsewidth s 0]) := by
  simp [disable_servo, hmix, hl, hst]

/-- How set_led_hsv behaves on a well-formed board at (0, 0, 0): the
stored colour becomes (0, 0, 0) and one backend update is pushed. -/
theorem set_led_hsv_zero_ok (b : Board) (d : ℤ) (l : List (ℤ × LEDState))
    (st : LEDState)
    (hmix : b.hasLedMixin = true) (hl : b.reg.leds = some l)
    (hst : alookup l d = some st) :
    set_led_hsv b d 0 0 0
      = .ok (b.withLeds (aset l d { st with hsv := ((0 : ℚ), 0, 0) }),
             [.ledUpdate d { st with hsv := ((0 : ℚ), 0, 0) }]) := by
  have h1 : pyFract 0 = 0 := by decide
  have h2 : check_positive 0 = 0 := by decide
  simp [set_led_hsv, hmix, hl, hst, h1, h2]

/-- The motor loop of stop over any index list, by induction: it emits
one zero-speed backend call per index in order and stores value 0 on each
listed motor, touching nothing else. -/
theorem runSeq_motors_zero (L : List ℤ) : ∀ (b : Board) (l : List (ℤ × MotorState)),
    b.hasMotorMixin = true → b.reg.motors = some l →
    (∀ m ∈ L, (alookup l m).isSome = true) →
    ∃ b' l', runSeq (fun bb mm => set_motor_speed bb mm 0) b L
        = .ok (b', L.map (fun m => Event.setMotorSpeed m 0))
      ∧ b'.backend = b.backend ∧ b'.motors = b.motors ∧ b'.servos = b.servos
      ∧ b'.adcs = b.adcs ∧ b'.leds = b.leds
      ∧ b'.reg.servos = b.reg.servos ∧ b'.reg.adcs = b.reg.adcs
      ∧ b'.reg.leds = b.reg.leds ∧ b'.reg.motors = some l'
      ∧ (∀ k ∈ L, (alookup l' k).map MotorState.value = some (some 0))
      ∧ (∀ k, k ∉ L → alookup l' k = alookup l k) := by
  induction L with
  | nil =>
    intro b l hmix hl hk
    exact ⟨b, l, rfl, rfl, rfl, rfl, rfl, rfl, rfl, rfl, rfl, hl,
      by simp, fun k _ => rfl⟩
  | cons m rest ih =>
    intro b l hmix hl hk
    obtain ⟨st, hst⟩ :=
      Option.isSome_iff_exists.mp (hk m (List.mem_cons_self m rest))
    have hstep := set_motor_speed_ok b m 0 l st hmix hl hst
    rw [check_range_zero] at hstep
    have hev : (if st.invert then -(0:ℚ) else 0) = 0 := by
      rw [neg_zero]
      exact ite_self 0
    rw [hev] at hstep
    have hk1 : ∀ m' ∈ rest,
        (alookup (aset l m { st with value := some (0:ℚ) }) m').isSome = true := by
      intro m' hm'
      rw [alookup_aset]
      by_cases h : m' = m
      · simp [h]
      · rw [if_neg h]
        exact hk m' (List.mem_cons_of_mem m hm')
    obtain ⟨b2, l2, hrun, hbk, hmo, hse, had, hle, hrs, hra, hrl, hl2, hz, hkeep⟩ :=
      ih (b.withMotors (aset l m { st with value := some (0:ℚ) })) _ hmix rfl hk1
    refine ⟨b2, l2, ?_, hbk, hmo, hse, had, hle, hrs, hra, hrl, hl2, ?_, ?_⟩
    · simp [runSeq, hstep, hrun]
    · intro k hkk
      rcases List.mem_cons.mp hkk with h | h
      · subst h
        by_cases hmem : k ∈ rest
        · exact hz k hmem
        · rw [hkeep k hmem, alookup_aset, if_pos rfl]
          rfl
      · exact hz k h
    · intro k hkk
      have h1 : k ∉ rest := fun hh => hkk (List.mem_cons_of_mem _ hh)
      have h2 : ¬ k = m := fun hh => hkk (hh ▸ List.mem_cons_self m rest)
      rw [hkeep k h1, alookup_aset, if_neg h2]

/-- The servo loop of stop over any index list, by induction: it emits
one zero-pulse backend call per index in order and clears the stored
position of each listed servo, touching nothing else. -/
theorem runSeq_servos_disable (L : List ℤ) : ∀ (b : Board) (l : List (ℤ × ServoState)),
    b.hasServoMixin = true → b.reg.servos = some l →
    (∀ s ∈ L, (alookup l s).isSome = true) →
    ∃ b' l', runSeq (fun bb ss => disable_servo bb ss) b L
        = .ok (b', L.map (fun s => Event.setServoPulsewidth s 0))
      ∧ b'.backend = b.backend ∧ b'.motors = b.motors ∧ b'.servos = b.servos
      ∧ b'.adcs = b.adcs ∧ b'.leds = b.leds
      ∧ b'.reg.motors = b.reg.motors ∧ b'.reg.adcs = b.reg.adcs
      ∧ b'.reg.leds = b.reg.leds ∧ b'.reg.servos = some l'
      ∧ (∀ k ∈ L, (alookup l' k).map ServoState.value = some none)
      ∧ (∀ k, k ∉ L → alookup l' k = alookup l k) := by
  induction L with
  | nil =>
    intro b l hmix hl hk
    exact ⟨b, l, rfl, rfl, rfl, rfl, rfl, rfl, rfl, rfl, rfl, hl,
      by simp, fun k _ => rfl⟩
  | cons m rest ih =>
    intro b l hmix hl hk
    obtain ⟨st, hst⟩ :=
      Option.isSome_iff_exists.mp (hk m (List.mem_cons_self m rest))
    have hstep := disable_servo_ok b m l st hmix hl hst
    have hk1 : ∀ s' ∈ rest,
        (alookup (aset l m { st with value := none }) s').isSome = true := by
      intro s' hs'
      rw [alookup_aset]
      by_cases h : s' = m
      · simp [h]
      · rw [if_neg h]
        exact hk s' (List.mem_cons_of_mem m hs')
    obtain ⟨b2, l2, hrun, hbk, hmo, hse, had, hle, hrm, hra, hrl, hl2, hz, hkeep⟩ :=
      ih (b.withServos (aset l m { st with value := none })) _ hmix rfl hk1
    refine ⟨b2, l2, ?_, hbk, hmo, hse, had, hle, hrm, hra, hrl, hl2, ?_, ?_⟩
    · simp [runSeq, hstep, hrun]
    · intro k hkk
      rcases List.mem_cons.mp hkk with h | h
      · subst h
        by_cases hmem : k ∈ rest
        · exact hz k hmem
        · rw [hkeep k hmem, alookup_aset, if_pos rfl]
          rfl
      · exact hz k h
    · intro k hkk
      have h1 : k ∉ rest := fun hh => hkk (List.mem_cons_of_mem _ hh)
      have h2 : ¬ k = m := fun hh => hkk (hh ▸ List.mem_cons_self m rest)
      rw [hkeep k h1, alookup_aset, if_neg h2]

/-- The LED loop of stop over any index list, by induction: it pushes one
backend update per index in order, each recording a stored colour of
(0, 0, 0), and stores (0, 0, 0) on each listed LED, touching nothing
else. -/
theorem runSeq_leds_zero (L : List ℤ) : ∀ (b : Board) (l : List (ℤ × LEDState)),
    b.hasLedMixin = true → b.reg.leds = some l →
    (∀ d ∈ L, (alookup l d).isSome = true) →
    ∃ b' l' sts, runSeq (fun bb dd => set_led_hsv bb dd 0 0 0) b L
        = .ok (b', List.zipWith Event.ledUpdate L sts)
      ∧ sts.length = L.length
      ∧ (∀ st ∈ sts, st.hsv = ((0 : ℚ), 0, 0))
      ∧ b'.backend = b.backend ∧ b'.motors = b.motors ∧ b'.servos = b.servos
      ∧ b'.adcs = b.adcs ∧ b'.leds = b.leds
      ∧ b'.reg.motors = b.reg.motors ∧ b'.reg.servos = b.reg.servos
      ∧ b'.reg.adcs = b.reg.adcs ∧ b'.reg.leds = some l'
      ∧ (∀ k ∈ L, (alookup l' k).map LEDState.hsv = some ((0 : ℚ), 0, 0))
      ∧ (∀ k, k ∉ L → alookup l' k = alookup l k) := by
  induction L with
  | nil =>
    intro b l hmix hl hk
    exact ⟨b, l, [], rfl, rfl, by simp, rfl, rfl, rfl, rfl, rfl, rfl, rfl, rfl,
      hl, by simp, fun k _ => rfl⟩
  | cons m rest ih =>
    intro b l hmix hl hk
    obtain ⟨st, hst⟩ :=
      Option.isSome_iff_exists.mp (hk m (List.mem_cons_self m rest))
    have hstep := set_led_hsv_zero_ok b m l st hmix hl hst
    have hk1 : ∀ d' ∈ rest,
        (alookup (aset l m { st with hsv := ((0:ℚ), 0, 0) }) d').isSome = true := by
      intro d' hd'
      rw [alookup_aset]
      by_cases h : d' = m
      · simp [h]
      · rw [if_neg h]
        exact hk d' (List.mem_cons_of_mem m hd')
    obtain ⟨b2, l2, sts2, hrun, hlen, hsts, hbk, hmo, hse, had, hle, hrm, hrs,
        hra, hl2, hz, hkeep⟩ :=
      ih (b.withLeds (aset l m { st with hsv := ((0:ℚ), 0, 0) })) _ hmix rfl hk1
    refine ⟨b2, l2, { st with hsv := ((0:ℚ), 0, 0) } :: sts2, ?_, ?_, ?_,
      hbk, hmo, hse, had, hle, hrm, hrs, hra, hl2, ?_, ?_⟩
    · simp only [runSeq, hstep, hrun, List.zipWith_cons_cons,
        List.singleton_append]
    · simp [hlen]
    · intro s' hs'
      rcases List.mem_cons.mp hs' with h | h
      · subst h
        rfl
      · exact hsts s' h
    · intro k hkk
      rcases List.mem_cons.mp hkk with h | h
      · subst h
        by_cases hmem : k ∈ rest
        · exact hz k hmem
        · rw [hkeep k hmem, alookup_aset, if_pos rfl]
          rfl
      · exact hz k h
    · intro k hkk
      have h1 : k ∉ rest := fun hh => hkk (List.mem_cons_of_mem _ hh)
      have h2 : ¬ k = m := fun hh => hkk (hh ▸ List.mem_cons_self m rest)
      rw [hkeep k h1, alookup_aset, if_neg h2]

/-- The motor phase of stop, stated through the per-channel hypotheses
c9 uses: when every listed motor has its mixin and a channel object, the
loop succeeds with one zero-speed call per index and every listed motor's
stored value becomes 0. -/
theorem stop_motors_phase (b : Board) (L : List ℤ)
    (hcond : ∀ m ∈ L, b.hasMotorMixin = true ∧ (motorStateOf b m).isSome = true) :
    ∃ b', runSeq (fun bb mm => set_motor_speed bb mm 0) b L
        = .ok (b', L.map (fun m => Event.setMotorSpeed m 0))
      ∧ b'.backend = b.backend ∧ b'.motors = b.motors ∧ b'.servos = b.servos
      ∧ b'.adcs = b.adcs ∧ b'.leds = b.leds
      ∧ b'.reg.servos = b.reg.servos ∧ b'.reg.adcs = b.reg.adcs
      ∧ b'.reg.leds = b.reg.leds
      ∧ (∀ k ∈ L, (motorStateOf b' k).map MotorState.value = some (some 0)) := by
  cases L with
  | nil => exact ⟨b, rfl, rfl, rfl, rfl, rfl, rfl, rfl, rfl, rfl, by simp⟩
  | cons m rest =>
    obtain ⟨hmix, hiso⟩ := hcond m (List.mem_cons_self m rest)
    rcases hl : b.reg.motors with _ | l
    · exfalso
      unfold motorStateOf at hiso
      rw [hl] at hiso
      simp at hiso
    · have hk : ∀ k ∈ (m :: rest), (alookup l k).isSome = true := by
        intro k hkk
        have h := (hcond k hkk).2
        unfold motorStateOf at h
        rw [hl] at h
        exact h
      obtain ⟨b2, l2, hrun, hbk, hmo, hse, had, hle, hrs, hra, hrl, hl2, hz, _⟩ :=
        runSeq_motors_zero (m :: rest) b l hmix hl hk
      refine ⟨b2, hrun, hbk, hmo, hse, had, hle, hrs, hra, hrl, ?_⟩
      intro k hkk
      unfold motorStateOf
      rw [hl2]
      exact hz k hkk

/-- The servo phase of stop, stated through the per-channel hypotheses
c9 uses. -/
theorem stop_servos_phase (b : Board) (L : List ℤ)
    (hcond : ∀ s ∈ L, b.hasServoMixin = true ∧ (servoStateOf b s).isSome = true) :
    ∃ b', runSeq (fun bb ss => disable_servo bb ss) b L
        = .ok (b', L.map (fun s => Event.setServoPulsewidth s 0))
      ∧ b'.backend = b.backend ∧ b'.motors = b.motors ∧ b'.servos = b.servos
      ∧ b'.adcs = b.adcs ∧ b'.leds = b.leds
      ∧ b'.reg.motors = b.reg.motors ∧ b'.reg.adcs = b.reg.adcs
      ∧ b'.reg.leds = b.reg.leds
      ∧ (∀ k ∈ L, (servoStateOf b' k).map ServoState.value = some none) := by
  cases L with
  | nil => exact ⟨b, rfl, rfl, rfl, rfl, rfl, rfl, rfl, rfl, rfl, by simp⟩
  | cons m rest =>
    obtain ⟨hmix, hiso⟩ := hcond m (List.mem_cons_self m rest)
    rcases hl : b.reg.servos with _ | l
    · exfalso
      unfold servoStateOf at hiso
      rw [hl] at hiso
      simp at hiso
    · have hk : ∀ k ∈ (m :: rest), (alookup l k).isSome = true := by
        intro k hkk
        have h := (hcond k hkk).2
        unfold servoStateOf at h
        rw [hl] at h
        exact h
      obtain ⟨b2, l2, hrun, hbk, hmo, hse, had, hle, hrm, hra, hrl, hl2, hz, _⟩ :=
        runSeq_servos_disable (m :: rest) b l hmix hl hk
      refine ⟨b2, hrun, hbk, hmo, hse, had, hle, hrm, hra, hrl, ?_⟩
      intro k hkk
      unfold servoStateOf
      rw [hl2]
      exact hz k hkk

/-- The LED phase of stop, stated through the per-channel hypotheses c9
uses. -/
theorem stop_leds_phase (b : Board) (L : List ℤ)
    (hcond : ∀ d ∈ L, b.hasLedMixin = true ∧ (ledStateOf b d).isSome = true) :
    ∃ b' sts, runSeq (fun bb dd => set_led_hsv bb dd 0 0 0) b L
        = .ok (b', List.zipWith Event.ledUpdate L sts)
      ∧ sts.length = L.length
      ∧ (∀ st ∈ sts, st.hsv = ((0 : ℚ), 0, 0))
      ∧ b'.backend = b.backend ∧ b'.motors = b.motors ∧ b'.servos = b.servos
      ∧ b'.adcs = b.adcs ∧ b'.leds = b.leds
      ∧ b'.reg.motors = b.reg.motors ∧ b'.reg.servos = b.reg.servos
      ∧ b'.reg.adcs = b.reg.adcs
      ∧ (∀ k ∈ L, (ledStateOf b' k).map LEDState.hsv = some ((0 : ℚ), 0, 0)) := by
  cases L with
  | nil =>
    exact ⟨b, [], rfl, rfl, by simp, rfl, rfl, rfl, rfl, rfl, rfl, rfl, rfl,
      by simp⟩
  | cons m rest =>
    obtain ⟨hmix, hiso⟩ := hcond m (List.mem_cons_self m rest)
    rcases hl : b.reg.leds with _ | l
    · exfalso
      unfold ledStateOf at hiso
      rw [hl] at hiso
      simp at hiso
    · have hk : ∀ k ∈ (m :: rest), (alookup l k).isSome = true := by
        intro k hkk
        have h := (hcond k hkk).2
        unfold ledStateOf at h
        rw [hl] at h
        exact h
      obtain ⟨b2, l2, sts, hrun, hlen, hsts, hbk, hmo, hse, had, hle, hrm, hrs,
          hra, hl2, hz, _⟩ :=
        runSeq_leds_zero (m :: rest) b l hmix hl hk
      refine ⟨b2, sts, hrun, hlen, hsts, hbk, hmo, hse, had, hle, hrm, hrs,
        hra, ?_⟩
      intro k hkk
      unfold ledStateOf
      rw [hl2]
      exact hz k hkk

/-- C9: stop() succeeds on any board whose requested channels are backed
by the matching primitives, and its backend-call trace is exactly: one
zero-speed call per motor in order, then one zero-pulse call per servo,
then one LED update per LED each recording stored colour (0, 0, 0), then
the optional _stop hook; afterwards every motor getter returns 0, every
servo getter returns None, and every LED getter returns (0, 0, 0). -/
theorem c9_theorem (b : Board)
    (hm : ∀ m ∈ b.motors, b.hasMotorMixin = true ∧ (motorStateOf b m).isSome = true)
    (hs : ∀ s ∈ b.servos, b.hasServoMixin = true ∧ (servoStateOf b s).isSome = true)
    (hd : ∀ d ∈ b.leds, b.hasLedMixin = true ∧ (ledStateOf b d).isSome = true) :
    ∃ b' sts, Board.stop b
        = .ok (b', b.motors.map (fun m => Event.setMotorSpeed m 0)
            ++ b.servos.map (fun s => Event.setServoPulsewidth s 0)
            ++ List.zipWith Event.ledUpdate b.leds sts
            ++ (if b.backend.hasStop then [Event.stopHook] else []))
      ∧ sts.length = b.leds.length
      ∧ (∀ st ∈ sts, st.hsv = ((0 : ℚ), 0, 0))
      ∧ (∀ m ∈ b.motors, motor_get_value b' m = some (some 0))
      ∧ (∀ s ∈ b.servos, servo_get_value b' s = some none)
      ∧ (∀ d ∈ b.leds, led_get_colour b' d = some ((0 : ℚ), 0, 0)) := by
  obtain ⟨b1, hrun1, hbk1, hmo1, hse1, had1, hle1, hrs1, hra1, hrl1, hmz⟩ :=
    stop_motors_phase b b.motors hm
  have hs1 : ∀ s ∈ b1.servos,
      b1.hasServoMixin = true ∧ (servoStateOf b1 s).isSome = true := by
    intro s hs'
    rw [hse1] at hs'
    refine ⟨?_, ?_⟩
    · unfold Board.hasServoMixin
      rw [hbk1, hse1]
      exact (hs s hs').1
    · unfold servoStateOf
      rw [hrs1]
      have h2 := (hs s hs').2
      unfold servoStateOf at h2
      exact h2
  obtain ⟨b2, hrun2, hbk2, hmo2, hse2, had2, hle2, hrm2, hra2, hrl2, hsz⟩ :=
    stop_servos_phase b1 b1.servos hs1
  have hd2 : ∀ d ∈ b2.leds,
      b2.hasLedMixin = true ∧ (ledStateOf b2 d).isSome = true := by
    intro d hd'
    rw [hle2, hle1] at hd'
    refine ⟨?_, ?_⟩
    · unfold Board.hasLedMixin
      rw [hbk2, hbk1, hle2, hle1]
      exact (hd d hd').1
    · unfold ledStateOf
      rw [hrl2, hrl1]
      have h2 := (hd d hd').2
      unfold ledStateOf at h2
      exact h2
  obtain ⟨b3, sts, hrun3, hlen, hsts, hbk3, hmo3, hse3, had3, hle3, hrm3, hrs3,
      hra3, hlz⟩ :=
    stop_leds_phase b2 b2.leds hd2
  refine ⟨b3, sts, ?_, ?_, hsts, ?_, ?_, ?_⟩
  · simp only [Board.stop, hrun1]
    simp only [hrun2]
    simp only [hrun3]
    simp only [hbk3, hbk2, hbk1, hse1, hle2, hle1]
  · rw [hlen, hle2, hle1]
  · intro m hm'
    have h := hmz m hm'
    unfold motor_get_value motorStateOf
    unfold motorStateOf at h
    rw [hrm3, hrm2]
    exact h
  · intro s hs'
    have h := hsz s (by rw [hse1]; exact hs')
    unfold servo_get_value servoStateOf
    unfold servoStateOf at h
    rw [hrs3]
    exact h
  · intro d hd'
    have h := hlz d (by rw [hle2, hle1]; exact hd')
    unfold led_get_colour
    exact h

/-- C9 witness: the statement at the concrete board with motors [0, 1],
servo [2] and LED [3] on a backend providing every primitive and a _stop
hook. -/
theorem c9_witness :
    ((∀ m ∈ c9board.motors,
        c9board.hasMotorMixin = true ∧ (motorStateOf c9board m).isSome = true)
     ∧ (∀ s ∈ c9board.servos,
        c9board.hasServoMixin = true ∧ (servoStateOf c9board s).isSome = true)
     ∧ (∀ d ∈ c9board.leds,
        c9board.hasLedMixin = true ∧ (ledStateOf c9board d).isSome = true))
    ∧ ∃ b' sts, Board.stop c9board
        = .ok (b', c9board.motors.map (fun m => Event.setMotorSpeed m 0)
            ++ c9board.servos.map (fun s => Event.setServoPulsewidth s 0)
            ++ List.zipWith Event.ledUpdate c9board.leds sts
            ++ (if c9board.backend.hasStop then [Event.stopHook] else []))
      ∧ sts.length = c9board.leds.length
      ∧ (∀ st ∈ sts, st.hsv = ((0 : ℚ), 0, 0))
      ∧ (∀ m ∈ c9board.motors, motor_get_value b' m = some (some 0))
      ∧ (∀ s ∈ c9board.servos, servo_get_value b' s = some none)
      ∧ (∀ d ∈ c9board.leds, led_get_colour b' d = some ((0 : ℚ), 0, 0)) :=
  ⟨⟨by decide, by decide, by decide⟩,
   c9_theorem c9board (by decide) (by decide) (by decide)⟩

end HwSupport
